import Mathlib

/-!
Verification of the deterministic clinical scoring core of AMA_AI4CDK.

Shallow embedding of the Python sources:
- `src/Modele_calcul_score.py` : CKD-EPI 2021 eGFR, SR-IRC additive score and
  its tier interpretation, the `to_float` clinical unit converter.
- `src/Modele_classification.py` : training-time feature engineering
  (`calc_cockcroft`, `calc_epi`, `Gap_Formules`, `IMC`).
- `src/ai4cdk/src/services/prediction_service.py` : serving-time feature
  engineering (`_calculate_edfg`, inline Cockcroft, `Gap_Formules`, `IMC`) and
  the model-derived risk score with its LOW/MEDIUM/HIGH banding.

Python floats are modelled as exact numbers (`ℚ` where every operation is
rational, `ℝ` where fractional powers occur); Python `float.__pow__` is
modelled by `Real.rpow`.  Python strings are Lean `String`s and the Python
substring test `pat in s` is `strContains s pat`.
-/

/-- ASCII lowercasing of one character: the effect of Python `str.lower` on
the character repertoire the repository feeds it. -/
def lowerChar (c : Char) : Char :=
  if 65 ≤ c.toNat ∧ c.toNat ≤ 90 then Char.ofNat (c.toNat + 32) else c

/-- ASCII uppercasing of one character: the effect of Python `str.upper` on
the character repertoire the repository feeds it. -/
def upperChar (c : Char) : Char :=
  if 97 ≤ c.toNat ∧ c.toNat ≤ 122 then Char.ofNat (c.toNat - 32) else c

/-- `pat` is a prefix of `s` (character lists). -/
def isPrefixL : List Char → List Char → Bool
  | [], _ => true
  | _ :: _, [] => false
  | p :: ps, c :: cs => p = c && isPrefixL ps cs

/-- Model of the Python substring test `pat in s`, on character lists. -/
def containsL (s pat : List Char) : Bool :=
  match s with
  | [] => isPrefixL pat []
  | c :: rest => isPrefixL pat (c :: rest) || containsL rest pat

/-- Python substring test `pat in s` with a string pattern. -/
def strContains (s : List Char) (pat : String) : Bool :=
  containsL s pat.data

/-- Model of Python whitespace on the repertoire used here. -/
def isSpaceChar (c : Char) : Bool :=
  c = ' ' || c = '\t' || c = '\n' || c = '\r'

/-- Model of Python `str.strip`. -/
def trimL (l : List Char) : List Char :=
  (((l.dropWhile isSpaceChar).reverse).dropWhile isSpaceChar).reverse

/-- Numeric value of a list of decimal digit characters (most significant
first), as used by the model of Python `float` parsing. -/
def digitsVal (l : List Char) : ℕ :=
  l.foldl (fun a c => a * 10 + (c.toNat - 48)) 0

/-- Model of the Python builtin `float(s)` applied to a string: strips
whitespace, accepts an optional sign and a decimal numeral with an optional
single point, and fails (`none`, i.e. `ValueError`) on anything else.
Scientific notation, `inf` and `nan` inputs are outside the fragment the
repository feeds to `float` and are modelled as failures. -/
def pyFloat? (s : List Char) : Option ℚ :=
  let t := trimL s
  let signAndRest : ℚ × List Char :=
    match t with
    | '-' :: rest => (-1, rest)
    | '+' :: rest => (1, rest)
    | _ => (1, t)
  let sign := signAndRest.1
  let u := signAndRest.2
  let intPart := u.takeWhile Char.isDigit
  let rest := u.dropWhile Char.isDigit
  match rest with
  | [] => if intPart.isEmpty then none else some (sign * (digitsVal intPart : ℚ))
  | '.' :: frac =>
    if frac.all Char.isDigit && !(intPart.isEmpty && frac.isEmpty) then
      some (sign * ((digitsVal intPart : ℚ) + (digitsVal frac : ℚ) / (10 : ℚ) ^ frac.length))
    else none
  | _ => none

/-- A raw CSV cell as seen by `to_float`: either missing (`pd.isna`) or the
string form `str(val)` of the stored value. -/
inductive Cell where
  | missing : Cell
  | str : String → Cell

/-- The normalisation `str(val).lower().replace(",", ".")` performed at the
top of `to_float`. -/
def pyNormalize (v : String) : List Char :=
  (v.data.map lowerChar).map fun c => if c = ',' then '.' else c

/-- `to_float` from `map_csv_row_to_patient` in `src/Modele_calcul_score.py`.
`some q` models a normal return of `q`; `none` models a `ValueError` escaping
`to_float` (the `">"` branch calls `float` outside any `try`).  The final
`float(s_val)` call sits inside `try/except` and returns `0.0` on failure. -/
def to_float (val : Cell) : Option ℚ :=
  match val with
  | Cell.missing => some 0
  | Cell.str v =>
    if v = "" then some 0
    else
      let s_val := pyNormalize v
      if strContains s_val "négative" || strContains s_val "trace" ||
          strContains s_val "absent" then some 0
      else if strContains s_val ">" then
        match pyFloat? (trimL (s_val.filter fun c => c ≠ '>')) with
        | some q => some (q + 1 / 10)
        | none => none
      else if strContains s_val "+" then
        some (if 3 ≤ s_val.count '+' then 3
              else if s_val.count '+' = 2 then 1 else 3 / 10)
      else
        match pyFloat? s_val with
        | some q => some q
        | none => some 0

/-- eGFR band of `calculate_sr_irc_score` (`src/Modele_calcul_score.py`). -/
def egfr_points (egfr : ℚ) : ℤ :=
  if egfr < 15 then 20
  else if egfr < 30 then 15
  else if egfr < 45 then 10
  else if egfr < 60 then 5
  else 0

/-- Age band of `calculate_sr_irc_score`. -/
def age_points (age : ℚ) : ℤ :=
  if 75 < age then 6
  else if 65 ≤ age then 4
  else if 50 ≤ age then 2
  else 0

/-- Sex contribution of `calculate_sr_irc_score`: `if "M" in str(sexe).upper()`. -/
def sexe_points (sexe : String) : ℤ :=
  if (sexe.data.map upperChar).contains 'M' then 1 else 0

/-- Proteinuria band of `calculate_sr_irc_score`. -/
def proteinurie_points (cat : String) : ℤ :=
  if cat = ">3" then 8
  else if cat = "]1;2]" then 4
  else 0

/-- `calculate_sr_irc_score` from `src/Modele_calcul_score.py`: `score = 0`
followed by the seven sequential `score +=` blocks. -/
def calculate_sr_irc_score (age : ℚ) (sexe : String) (egfr : ℚ)
    (proteinurie_cat : String) (diabete hta : Bool) (hb : ℚ) : ℤ :=
  0 + egfr_points egfr + age_points age + sexe_points sexe +
    proteinurie_points proteinurie_cat +
    (if diabete then 3 else 0) + (if hta then 2 else 0) +
    (if hb < 11 then 3 else 0)

/-- `interpret_sr_irc_risk` from `src/Modele_calcul_score.py`: tier label,
marker, follow-up cadence and recommendation. -/
def interpret_sr_irc_risk (score : ℤ) : String × String × String × String :=
  if 40 < score then
    ("Imminent", "⚫", "Dialyse proche", "Hospitalisation / Urgence Néphrologique")
  else if 31 ≤ score then
    ("Très élevé", "🔴", "Préparation dialyse", "Suivi mensuel / Mise en place abord vasculaire")
  else if 21 ≤ score then
    ("Élevé", "🟠", "Suivi trimestriel", "Consultation néphrologique spécialisée")
  else if 11 ≤ score then
    ("Modéré", "🟡", "Contrôle semestriel", "Surveillance biologique régulière")
  else
    ("Faible", "🟢", "Contrôle annuel", "Mesures de néphroprotection standard")

/-- The seven band contributions exactly as tabulated in the claim (spec §4.4),
eGFR column. -/
def claim_egfr_band (egfr : ℚ) : ℤ :=
  if egfr < 15 then 20
  else if egfr < 30 then 15
  else if egfr < 45 then 10
  else if egfr < 60 then 5
  else 0

/-- Claim band table, age column (`>75→6, ≥65→4, ≥50→2, else 0`). -/
def claim_age_band (age : ℚ) : ℤ :=
  if 75 < age then 6
  else if 65 ≤ age then 4
  else if 50 ≤ age then 2
  else 0

/-- Claim band table, sex column (`male→+1`), with maleness read the way the
source reads it. -/
def claim_sex_band (sexe : String) : ℤ :=
  if (sexe.data.map upperChar).contains 'M' then 1 else 0

/-- Claim band table, proteinuria column (`">3"→8, "]1;2]"→4, else 0`). -/
def claim_prot_band (cat : String) : ℤ :=
  if cat = ">3" then 8
  else if cat = "]1;2]" then 4
  else 0

/-- Risk categories of `src/ai4cdk/src/models/schemas.py`. -/
inductive RiskCategory where
  | LOW : RiskCategory
  | MEDIUM : RiskCategory
  | HIGH : RiskCategory
deriving DecidableEq

/-- The `stage_base.get(stage_label, 50)` lookup of
`PredictionService._calculate_risk_score`. -/
def stage_base_get (stage_label : String) : ℤ :=
  if stage_label = "1" then 10
  else if stage_label = "2" then 25
  else if stage_label = "3a" then 45
  else if stage_label = "3b" then 60
  else if stage_label = "4" then 80
  else if stage_label = "5" then 95
  else 50

/-- `PredictionService._calculate_risk_score` from
`src/ai4cdk/src/services/prediction_service.py`. -/
def calculate_risk_score (stage_label : String) (age edfg creatinine : ℚ) : ℤ :=
  let score := stage_base_get stage_label
  let score := if 65 < age ∧ edfg < 45 then score + 5 else score
  let score := if 50 < creatinine then score + 5 else score
  min (max score 0) 100

/-- The risk banding applied to `risk_score` in `PredictionService.predict_stage`. -/
def risk_category_of (risk_score : ℤ) : RiskCategory :=
  if risk_score < 40 then RiskCategory.LOW
  else if risk_score < 70 then RiskCategory.MEDIUM
  else RiskCategory.HIGH

/-- Happy path of `calc_cockcroft` in `src/Modele_classification.py`, after the
four `float(...)` conversions succeeded. -/
def calc_cockcroft_vals (age poids creat_mg_l : ℚ) (sexe : String) : ℚ :=
  let creat_mg_dl := creat_mg_l / 10
  if creat_mg_dl ≤ 0.1 then 120
  else
    let cl_cr := ((140 - age) * poids) / (72 * creat_mg_dl)
    if (sexe.data.map upperChar).contains 'F' then cl_cr * 0.85 else cl_cr

/-- `calc_cockcroft` from `src/Modele_classification.py`: `none` arguments model
row fields whose `float(...)` conversion raises, in which case the bare
`except` returns the sentinel `70`. -/
def calc_cockcroft (age poids creat_mg_l : Option ℚ) (sexe : String) : ℚ :=
  match age, poids, creat_mg_l with
  | some a, some p, some c => calc_cockcroft_vals a p c sexe
  | _, _, _ => 70

/-- `calculate_egfr_2021` from `src/Modele_calcul_score.py` (CKD-EPI 2021,
creatinine given in mg/L).  Python `**` between floats is `Real.rpow`. -/
noncomputable def calculate_egfr_2021 (age : ℝ) (sexe : String) (creat_mg_l : ℝ) : ℝ :=
  if creat_mg_l ≤ 0 then 0
  else
    let scr := creat_mg_l / 10
    let isF := (sexe.data.map upperChar).contains 'F'
    let kappa : ℝ := if isF then 0.7 else 0.9
    let alpha : ℝ := if isF then -0.241 else -0.302
    let sex_factor : ℝ := if isF then 1.012 else 1
    142 * (min (scr / kappa) 1) ^ alpha * (max (scr / kappa) 1) ^ (-1.200 : ℝ) *
      (0.9938 : ℝ) ^ age * sex_factor

/-- The eGFR formula exactly as the claim words it: `142 * min(scr/kappa,1)^alpha
* max(scr/kappa,1)^(-1.200) * 0.9938^age * sex_factor` with `scr =
creatinine/10.0`, `kappa=0.7, alpha=-0.241, sex_factor=1.012` for females and
`kappa=0.9, alpha=-0.302, sex_factor=1.0` for males. -/
noncomputable def egfr_claim_formula (age : ℝ) (female : Bool) (creat_mg_l : ℝ) : ℝ :=
  let scr := creat_mg_l / 10
  let kappa : ℝ := if female then 0.7 else 0.9
  let alpha : ℝ := if female then -0.241 else -0.302
  let sex_factor : ℝ := if female then 1.012 else 1
  142 * (min (scr / kappa) 1) ^ alpha * (max (scr / kappa) 1) ^ (-1.200 : ℝ) *
    (0.9938 : ℝ) ^ age * sex_factor

/-- `calc_epi` from `src/Modele_classification.py` (training-time eGFR column).
Note the source substitutes `cr = 0.9` when `cr ≤ 0`, tests `'M' in
str(row)` without upper-casing, applies `* 1.012` in the male branch and
`* 0.9938` in the female branch. -/
noncomputable def calc_epi (age : ℝ) (sexe : String) (creat_mg_l : ℝ) : ℝ :=
  let cr0 := creat_mg_l / 10
  let cr : ℝ := if cr0 ≤ 0 then 0.9 else cr0
  if sexe.data.contains 'M' then
    142 * (min (cr / 0.9) 1) ^ (-0.302 : ℝ) * (max (cr / 0.9) 1) ^ (-1.2 : ℝ) *
      (0.9938 : ℝ) ^ age * 1.012
  else
    142 * (min (cr / 0.7) 1) ^ (-0.241 : ℝ) * (max (cr / 0.7) 1) ^ (-1.2 : ℝ) *
      (0.9938 : ℝ) ^ age * 0.9938

/-- `PredictionService._calculate_edfg` from
`src/ai4cdk/src/services/prediction_service.py`. -/
noncomputable def calculate_edfg (creat age : ℝ) (is_male : Bool) : ℝ :=
  let creat_mg_dl := creat / 10
  let kappa : ℝ := if is_male then 0.9 else 0.7
  let alpha : ℝ := if is_male then -0.302 else -0.241
  let gender_mult : ℝ := if is_male then 1 else 1.012
  142 * (min (creat_mg_dl / kappa) 1) ^ alpha * (max (creat_mg_dl / kappa) 1) ^ (-1.200 : ℝ) *
    (0.9938 : ℝ) ^ age * gender_mult

/-- The inline Cockcroft computation of `PredictionService.predict_stage`
(no low-creatinine sentinel, no failure fallback). -/
noncomputable def cockcroft_serving (age poids creat : ℝ) (is_male : Bool) : ℝ :=
  ((140 - age) * poids) / (72 * (creat / 10)) * (if is_male then 1 else 0.85)

/-- `Gap_Formules` in the training featurizer (`src/Modele_classification.py`,
`data['Gap_Formules'] = data['eDFG_CKD_EPI'] - data['Clairance_Cockcroft']`):
the signed pointwise difference of the two renal-function columns. -/
noncomputable def Gap_Formules (edfg cockcroft : ℝ) : ℝ :=
  edfg - cockcroft

/-- `Gap_Formules` in the serving featurizer (`PredictionService.predict_stage`,
`'Gap_Formules': abs(edfg - cockcroft)`). -/
noncomputable def gap_formules_serving (edfg cockcroft : ℝ) : ℝ :=
  |edfg - cockcroft|

/-- The training-time `IMC` column of `src/Modele_classification.py`:
`h_m = np.where(taille > 3, taille/100, taille); IMC = poids / (h_m**2 + 0.1)`. -/
noncomputable def imc_train (poids taille : ℝ) : ℝ :=
  let h_m := if 3 < taille then taille / 100 else taille
  poids / (h_m ^ 2 + 0.1)

/-- The serving-time `imc` of `PredictionService.predict_stage`:
`poids / taille**2` (no centimeter defense, no offset). -/
noncomputable def imc_serving (poids taille : ℝ) : ℝ :=
  poids / taille ^ 2

/-- The BMI formula exactly as the claim words it: `weight / height²` with a
height `> 3` first divided by 100, and nothing else in the denominator. -/
noncomputable def imc_claim (poids taille : ℝ) : ℝ :=
  let h_m := if 3 < taille then taille / 100 else taille
  poids / h_m ^ 2

/-! Theorems.  Each claim of the specification audit is settled by exactly one
theorem below (plus a counterexample theorem where the claim as stated fails,
and a witness instantiating hypotheses at concrete inputs). -/

/-- Claim C2: the SR-IRC score is the sum of exactly 7 independent band
contributions with the tabulated thresholds; the tier interpretation is
`>40` Imminent, `31..40` Very High (`Très élevé`), `21..30` High (`Élevé`),
`11..20` Moderate (`Modéré`), `≤10` Low (`Faible`), lower bounds inclusive;
the two reference inputs score 43 → Imminent and 0 → Low. -/
theorem sr_irc_score_bands_and_tiers :
    (∀ (age egfr hb : ℚ) (sexe prot : String) (diabete hta : Bool),
        calculate_sr_irc_score age sexe egfr prot diabete hta hb =
          claim_egfr_band egfr + claim_age_band age + claim_sex_band sexe +
            claim_prot_band prot + (if diabete then 3 else 0) +
            (if hta then 2 else 0) + (if hb < 11 then 3 else 0)) ∧
    (∀ s : ℤ,
        (40 < s → (interpret_sr_irc_risk s).1 = "Imminent") ∧
        (31 ≤ s → s ≤ 40 → (interpret_sr_irc_risk s).1 = "Très élevé") ∧
        (21 ≤ s → s ≤ 30 → (interpret_sr_irc_risk s).1 = "Élevé") ∧
        (11 ≤ s → s ≤ 20 → (interpret_sr_irc_risk s).1 = "Modéré") ∧
        (s ≤ 10 → (interpret_sr_irc_risk s).1 = "Faible")) ∧
    calculate_sr_irc_score 80 "M" 10 ">3" true true 9 = 43 ∧
    (interpret_sr_irc_risk (calculate_sr_irc_score 80 "M" 10 ">3" true true 9)).1 = "Imminent" ∧
    calculate_sr_irc_score 40 "F" 70 "≤1" false false 13 = 0 ∧
    (interpret_sr_irc_risk (calculate_sr_irc_score 40 "F" 70 "≤1" false false 13)).1 = "Faible" := by
  refine ⟨?_, ?_, rfl, rfl, rfl, rfl⟩
  · intro age egfr hb sexe prot diabete hta
    unfold calculate_sr_irc_score egfr_points age_points sexe_points proteinurie_points
      claim_egfr_band claim_age_band claim_sex_band claim_prot_band
    ring
  · intro s
    unfold interpret_sr_irc_risk
    refine ⟨?_, ?_, ?_, ?_, ?_⟩ <;> intros <;> split_ifs <;>
      first
      | rfl
      | (exfalso; omega)

/-- Witness for C2: the tier interpretation and the band sum applied at the
two reference inputs. -/
theorem sr_irc_score_bands_witness :
    (interpret_sr_irc_risk 43).1 = "Imminent" ∧
    (interpret_sr_irc_risk 7).1 = "Faible" ∧
    calculate_sr_irc_score 80 "M" 10 ">3" true true 9 =
      claim_egfr_band 10 + claim_age_band 80 + claim_sex_band "M" +
        claim_prot_band ">3" + (if true then 3 else 0) + (if true then 2 else 0) +
        (if (9 : ℚ) < 11 then 3 else 0) :=
  ⟨(sr_irc_score_bands_and_tiers.2.1 43).1 (by norm_num),
   (sr_irc_score_bands_and_tiers.2.1 7).2.2.2.2 (by norm_num),
   sr_irc_score_bands_and_tiers.1 80 10 9 "M" ">3" true true⟩

/-- Claim C10: for a stage label outside the base table, the model-derived
risk score starts from the default base 50; with no age/eGFR and no
creatinine adjustment it stays exactly 50, which the banding maps to MEDIUM. -/
theorem risk_score_unknown_stage_is_50_medium (stage : String) (age edfg creatinine : ℚ)
    (h1 : stage ≠ "1") (h2 : stage ≠ "2") (h3 : stage ≠ "3a") (h4 : stage ≠ "3b")
    (h5 : stage ≠ "4") (h6 : stage ≠ "5")
    (hae : age ≤ 65 ∨ 45 ≤ edfg) (hc : creatinine ≤ 50) :
    calculate_risk_score stage age edfg creatinine = 50 ∧
    risk_category_of (calculate_risk_score stage age edfg creatinine) = RiskCategory.MEDIUM := by
  have hbase : stage_base_get stage = 50 := by
    unfold stage_base_get
    rw [if_neg h1, if_neg h2, if_neg h3, if_neg h4, if_neg h5, if_neg h6]
  have hcond : ¬ (65 < age ∧ edfg < 45) := by
    rcases hae with h | h
    · exact fun hh => absurd hh.1 (not_lt.mpr h)
    · exact fun hh => absurd hh.2 (not_lt.mpr h)
  have h50 : calculate_risk_score stage age edfg creatinine = 50 := by
    simp only [calculate_risk_score, hbase, if_neg hcond, if_neg (not_lt.mpr hc)]
    omega
  exact ⟨h50, by rw [h50]; rfl⟩

/-- Witness for C10 at the unknown stage label "G3A" (the training pipeline's
own label alphabet) with age 40, eGFR 80, creatinine 10. -/
theorem risk_score_unknown_stage_witness :
    calculate_risk_score "G3A" 40 80 10 = 50 ∧
    risk_category_of (calculate_risk_score "G3A" 40 80 10) = RiskCategory.MEDIUM :=
  risk_score_unknown_stage_is_50_medium "G3A" 40 80 10 (by decide) (by decide) (by decide)
    (by decide) (by decide) (by decide) (Or.inl (by norm_num)) (by norm_num)

/-- Claim C4 (code bug): `to_float` is not total.  On `">abc"` the `">"`
branch calls `float("abc")` outside any `try`, so a `ValueError` escapes
(modelled by `none`); the claim (and spec §4.1) promise `0.0` instead.  By
contrast `"abc"` without the marker reaches the guarded final branch and
degrades to `0.0`. -/
theorem to_float_raises_on_gt_nonnumeric :
    to_float (Cell.str ">abc") = none ∧ to_float (Cell.str "abc") = some 0 :=
  ⟨rfl, rfl⟩

/-- Counterexample for C8: the claim says converting `"2+"` returns `1.0`,
but `"2+"` contains a single `'+'` character, so the count-based bucket rule
of the source returns `0.3`. -/
theorem to_float_two_plus_counterexample :
    to_float (Cell.str "2+") = some (3 / 10) ∧ (3 / 10 : ℚ) ≠ 1 :=
  ⟨rfl, by norm_num⟩

/-- Claim C8 as amended: the converter returns the parsed value on plain
numeric strings (idempotence on numerics); a string containing `'+'` maps to
the bucket of its `'+'`-character count (1 → 0.3, 2 → 1.0, ≥3 → 3.0), so
`"2+"` gives 0.3 while `"++"` gives 1.0; `">50"` gives 50.1; `"négative"`,
`"trace"`, `"absent"`, empty and missing inputs give 0.0. -/
theorem to_float_conversion_table_amended :
    (∀ (v : String) (q : ℚ),
        v ≠ "" →
        strContains (pyNormalize v) "négative" = false →
        strContains (pyNormalize v) "trace" = false →
        strContains (pyNormalize v) "absent" = false →
        strContains (pyNormalize v) ">" = false →
        strContains (pyNormalize v) "+" = false →
        pyFloat? (pyNormalize v) = some q →
        to_float (Cell.str v) = some q) ∧
    (∀ v : String,
        v ≠ "" →
        strContains (pyNormalize v) "négative" = false →
        strContains (pyNormalize v) "trace" = false →
        strContains (pyNormalize v) "absent" = false →
        strContains (pyNormalize v) ">" = false →
        strContains (pyNormalize v) "+" = true →
        to_float (Cell.str v) =
          some (if 3 ≤ (pyNormalize v).count '+' then 3
                else if (pyNormalize v).count '+' = 2 then 1 else 3 / 10)) ∧
    to_float (Cell.str "+") = some (3 / 10) ∧
    to_float (Cell.str "++") = some 1 ∧
    to_float (Cell.str "+++") = some 3 ∧
    to_float (Cell.str "++++") = some 3 ∧
    to_float (Cell.str "2+") = some (3 / 10) ∧
    to_float (Cell.str ">50") = some (501 / 10) ∧
    to_float (Cell.str "négative") = some 0 ∧
    to_float (Cell.str "trace") = some 0 ∧
    to_float (Cell.str "absent") = some 0 ∧
    to_float (Cell.str "") = some 0 ∧
    to_float Cell.missing = some 0 := by
  refine ⟨?_, ?_, rfl, rfl, rfl, rfl, rfl, ?_, rfl, rfl, rfl, rfl, rfl⟩
  · intro v q hv h1 h2 h3 h4 h5 hq
    simp only [to_float, if_neg hv, h1, h2, h3, h4, h5, hq, Bool.or_self, Bool.or_false,
      Bool.false_eq_true, if_false]
  · intro v hv h1 h2 h3 h4 h5
    simp only [to_float, if_neg hv, h1, h2, h3, h4, h5, Bool.or_self, Bool.or_false,
      Bool.false_eq_true, if_false, if_true]
  · have h : to_float (Cell.str ">50") = some ((1 : ℚ) * ((50 : ℕ) : ℚ) + 1 / 10) := rfl
    rw [h]; norm_num

/-- Witness for C8: idempotence applied at the numeric string `"3.5"`. -/
theorem to_float_conversion_witness :
    to_float (Cell.str "3.5") = some (7 / 2) :=
  to_float_conversion_table_amended.1 "3.5" (7 / 2) (by decide) rfl rfl rfl rfl rfl
    (by
      have h : pyFloat? (pyNormalize "3.5") =
          some ((1 : ℚ) * (((3 : ℕ) : ℚ) + ((5 : ℕ) : ℚ) / (10 : ℚ) ^ (1 : ℕ))) := rfl
      rw [h]; norm_num)

/-- Counterexample for C5: the claim quantifies over "the Cockcroft-Gault
computation", but the serving-path computation inline in
`PredictionService.predict_stage` applies no low-creatinine sentinel: at
creatinine 1 mg/L (so `creat_mg_dl = 0.1 ≤ 0.1`), age 40, weight 72, male,
it returns the raw formula value 1000, not 120. -/
theorem cockcroft_serving_no_sentinel_counterexample :
    ((1 : ℝ) / 10 ≤ 0.1) ∧
    cockcroft_serving 40 72 1 true = 1000 ∧ ((1000 : ℝ) ≠ 120) := by
  refine ⟨by norm_num, ?_, by norm_num⟩
  norm_num [cockcroft_serving]

/-- Claim C5 as amended: `calc_cockcroft` in the training pipeline returns the
sentinel 120 whenever `creat_mg_dl = creatinine/10 ≤ 0.1` (in particular at
creatinine 0), otherwise `((140-age)*weight)/(72*creat_mg_dl)` times 0.85 for
females, and the sentinel 70 when any field conversion fails; the inline
serving-path computation in `predict_stage` has neither sentinel. -/
theorem cockcroft_sentinels_amended (age poids creat : ℚ) (sexe : String) :
    (creat / 10 ≤ 0.1 → calc_cockcroft_vals age poids creat sexe = 120) ∧
    (¬ creat / 10 ≤ 0.1 →
        calc_cockcroft_vals age poids creat sexe =
          ((140 - age) * poids) / (72 * (creat / 10)) *
            (if (sexe.data.map upperChar).contains 'F' then 0.85 else 1)) ∧
    (∀ a p c : Option ℚ, a = none ∨ p = none ∨ c = none →
        calc_cockcroft a p c sexe = 70) ∧
    calc_cockcroft_vals age poids 0 sexe = 120 := by
  refine ⟨?_, ?_, ?_, ?_⟩
  · intro h
    simp only [calc_cockcroft_vals, if_pos h]
  · intro h
    simp only [calc_cockcroft_vals, if_neg h]
    split_ifs <;> ring
  · intro a p c h
    rcases h with rfl | rfl | rfl
    · cases p <;> cases c <;> rfl
    · cases a <;> cases c <;> rfl
    · cases a <;> cases p <;> rfl
  · simp only [calc_cockcroft_vals]
    rw [if_pos (by norm_num : (0 : ℚ) / 10 ≤ 0.1)]

/-- Witness for C5: the sentinel branch at creatinine 1 mg/L (boundary), the
formula branch at creatinine 20 mg/L, and the failure fallback. -/
theorem cockcroft_sentinels_witness :
    calc_cockcroft_vals 40 72 1 "M" = 120 ∧
    calc_cockcroft_vals 30 80 20 "F" =
      ((140 - 30) * 80) / (72 * ((20 : ℚ) / 10)) *
        (if (("F".data.map upperChar)).contains 'F' then 0.85 else 1) ∧
    calc_cockcroft none (some 72) (some 1) "M" = 70 :=
  ⟨(cockcroft_sentinels_amended 40 72 1 "M").1 (by norm_num),
   (cockcroft_sentinels_amended 30 80 20 "F").2.1 (by norm_num),
   (cockcroft_sentinels_amended 40 72 1 "M").2.2.1 none (some 72) (some 1) (Or.inl rfl)⟩

/-- Counterexample for C9: the claim's BMI formula (`weight/height²` with only
the centimeter defense) matches neither path: the training `IMC` adds `0.1`
to the squared height, and the serving `imc` has no centimeter defense. -/
theorem imc_counterexample :
    imc_train 70 1.75 ≠ imc_claim 70 1.75 ∧
    imc_serving 70 175 ≠ imc_claim 70 175 := by
  constructor
  · norm_num [imc_train, imc_claim]
  · norm_num [imc_serving, imc_claim]

/-- Claim C9 as amended: the training `IMC` divides by `h_m² + 0.1` (with the
centimeter defense), hence is strictly below the claim's `weight/h_m²`; the
serving `imc` divides by the raw squared height, which agrees with the claim
only when no centimeter defense would trigger (`height ≤ 3`) and is off by a
factor 10000 otherwise. -/
theorem imc_denominators_amended (poids taille : ℝ)
    (hp : 0 < poids) (ht : 0 < taille) :
    imc_train poids taille < imc_claim poids taille ∧
    (taille ≤ 3 → imc_serving poids taille = imc_claim poids taille) ∧
    (3 < taille → imc_serving poids taille = imc_claim poids taille / 10000) := by
  have hm_pos : (0 : ℝ) < (if 3 < taille then taille / 100 else taille) := by
    split_ifs <;> positivity
  refine ⟨?_, ?_, ?_⟩
  · simp only [imc_train, imc_claim]
    exact div_lt_div_of_pos_left hp (by positivity) (by nlinarith [sq_nonneg (if 3 < taille then taille / 100 else taille)])
  · intro h
    simp only [imc_serving, imc_claim, if_neg (not_lt.mpr h)]
  · intro h
    simp only [imc_serving, imc_claim, if_pos h]
    have ht0 : taille ≠ 0 := ne_of_gt ht
    field_simp
    ring

/-- Witness for C9: the training/claim gap at (70 kg, 1.75 m) and the
serving/claim factor at a centimeter-entry height of 175. -/
theorem imc_denominators_witness :
    imc_train 70 1.75 < imc_claim 70 1.75 ∧
    imc_serving 70 175 = imc_claim 70 175 / 10000 :=
  ⟨(imc_denominators_amended 70 1.75 (by norm_num) (by norm_num)).1,
   (imc_denominators_amended 70 175 (by norm_num) (by norm_num)).2.2 (by norm_num)⟩

/-- In both branches of the `min/max` collapse, the CKD-EPI core
`min(x,1)^alpha * max(x,1)^(-1.200)` is strictly antitone on positive
arguments for any negative `alpha`. -/
lemma g_strict_anti (alpha : ℝ) (ha : alpha < 0) (u v : ℝ) (hu : 0 < u) (huv : u < v) :
    (min v 1) ^ alpha * (max v 1) ^ (-1.200 : ℝ) <
      (min u 1) ^ alpha * (max u 1) ^ (-1.200 : ℝ) := by
  have h12 : (-1.200 : ℝ) < 0 := by norm_num
  rcases le_or_lt v 1 with hv1 | hv1
  · rw [min_eq_left hv1, min_eq_left (le_of_lt (lt_of_lt_of_le huv hv1)),
      max_eq_right hv1, max_eq_right (le_of_lt (lt_of_lt_of_le huv hv1)),
      Real.one_rpow, mul_one, mul_one]
    exact Real.rpow_lt_rpow_of_neg hu huv ha
  · rcases le_or_lt 1 u with hu1 | hu1
    · rw [min_eq_right hu1, min_eq_right hv1.le, max_eq_left hu1,
        max_eq_left hv1.le, Real.one_rpow, one_mul, one_mul]
      exact Real.rpow_lt_rpow_of_neg (lt_of_lt_of_le one_pos hu1) huv h12
    · rw [min_eq_left hu1.le, min_eq_right hv1.le, max_eq_right hu1.le,
        max_eq_left hv1.le, Real.one_rpow, Real.one_rpow, one_mul, mul_one]
      calc v ^ (-1.200 : ℝ) < 1 := Real.rpow_lt_one_of_one_lt_of_neg hv1 h12
        _ ≤ u ^ alpha :=
          Real.one_le_rpow_of_pos_of_le_one_of_nonpos hu hu1.le ha.le

/-- The full CKD-EPI expression is strictly antitone in the creatinine
argument, for any positive `kappa`, negative `alpha` and positive sex factor. -/
lemma egfr_core_anti (kappa alpha sf age : ℝ) (hk : 0 < kappa) (ha : alpha < 0)
    (hsf : 0 < sf) (x y : ℝ) (hx : 0 < x) (hxy : x < y) :
    142 * (min (y / kappa) 1) ^ alpha * (max (y / kappa) 1) ^ (-1.200 : ℝ) *
        (0.9938 : ℝ) ^ age * sf <
      142 * (min (x / kappa) 1) ^ alpha * (max (x / kappa) 1) ^ (-1.200 : ℝ) *
        (0.9938 : ℝ) ^ age * sf := by
  have hgap := g_strict_anti alpha ha (x / kappa) (y / kappa)
    (div_pos hx hk) (div_lt_div_of_pos_right hxy hk)
  calc 142 * (min (y / kappa) 1) ^ alpha * (max (y / kappa) 1) ^ (-1.200 : ℝ) *
        (0.9938 : ℝ) ^ age * sf
      = ((min (y / kappa) 1) ^ alpha * (max (y / kappa) 1) ^ (-1.200 : ℝ)) *
        (142 * (0.9938 : ℝ) ^ age * sf) := by ring
    _ < ((min (x / kappa) 1) ^ alpha * (max (x / kappa) 1) ^ (-1.200 : ℝ)) *
        (142 * (0.9938 : ℝ) ^ age * sf) := by
          refine mul_lt_mul_of_pos_right hgap ?_
          have hP : (0 : ℝ) < (0.9938 : ℝ) ^ age := Real.rpow_pos_of_pos (by norm_num) age
          positivity
    _ = 142 * (min (x / kappa) 1) ^ alpha * (max (x / kappa) 1) ^ (-1.200 : ℝ) *
        (0.9938 : ℝ) ^ age * sf := by ring

/-- Claim C7: for fixed age > 0 and fixed sex, `calculate_egfr_2021` is
strictly decreasing in creatinine over creatinine > 0, including across the
`scr/kappa = 1` boundary. -/
theorem egfr_strictly_decreasing_in_creatinine (age : ℝ) (sexe : String) (c1 c2 : ℝ)
    (hage : 0 < age) (hc1 : 0 < c1) (h12 : c1 < c2) :
    calculate_egfr_2021 age sexe c2 < calculate_egfr_2021 age sexe c1 := by
  have hc2 : 0 < c2 := lt_trans hc1 h12
  simp only [calculate_egfr_2021, if_neg (not_le.mpr hc1), if_neg (not_le.mpr hc2)]
  have hd : c1 / 10 < c2 / 10 := by linarith
  have hd1 : 0 < c1 / 10 := by linarith
  cases hF : (sexe.data.map upperChar).contains 'F' <;>
    simp only [Bool.false_eq_true, if_false, if_true]
  · exact egfr_core_anti 0.9 (-0.302) 1 age (by norm_num) (by norm_num) (by norm_num)
      (c1 / 10) (c2 / 10) hd1 hd
  · exact egfr_core_anti 0.7 (-0.241) 1.012 age (by norm_num) (by norm_num) (by norm_num)
      (c1 / 10) (c2 / 10) hd1 hd

/-- Witness for C7: doubling creatinine from 9 to 18 mg/L at age 50, male,
strictly lowers the eGFR. -/
theorem egfr_strictly_decreasing_witness :
    calculate_egfr_2021 50 "M" 18 < calculate_egfr_2021 50 "M" 9 :=
  egfr_strictly_decreasing_in_creatinine 50 "M" 9 18 (by norm_num) (by norm_num)
    (by norm_num)

/-- `calculate_egfr_2021` agrees with the claim's formula for both canonical
sex strings, for positive creatinine. -/
lemma egfr_formula_match (age creat : ℝ) (hc : 0 < creat) :
    calculate_egfr_2021 age "F" creat = egfr_claim_formula age true creat ∧
    calculate_egfr_2021 age "M" creat = egfr_claim_formula age false creat := by
  have hF : (("F".data.map upperChar).contains 'F') = true := rfl
  have hM : (("M".data.map upperChar).contains 'F') = false := rfl
  constructor
  · simp only [calculate_egfr_2021, egfr_claim_formula, if_neg (not_le.mpr hc), hF,
      if_true]
  · simp only [calculate_egfr_2021, egfr_claim_formula, if_neg (not_le.mpr hc), hM,
      Bool.false_eq_true, if_false]

/-- Closed form of `calc_epi` at age 50, male, at the two creatinine inputs
where `cr = 0.9` (either substituted for non-positive creatinine, or given as
9 mg/L): the `min`/`max` factors collapse to 1. -/
lemma calc_epi_M_at (creat : ℝ) (h : creat / 10 ≤ 0 ∨ creat = 9) :
    calc_epi 50 "M" creat = 142 * (0.9938 : ℝ) ^ (50 : ℝ) * 1.012 := by
  have hM : ("M".data.contains 'M') = true := rfl
  rcases h with h | rfl
  · simp only [calc_epi, if_pos h, hM, if_true]
    norm_num [Real.one_rpow]
  · simp only [calc_epi, if_neg (by norm_num : ¬ (9 : ℝ) / 10 ≤ 0), hM, if_true]
    norm_num [Real.one_rpow]

/-- Closed form of the claim's male formula at age 50, creatinine 9 mg/L. -/
lemma claim_M_9 : egfr_claim_formula 50 false 9 = 142 * (0.9938 : ℝ) ^ (50 : ℝ) := by
  simp only [egfr_claim_formula, Bool.false_eq_true, if_false]
  norm_num [Real.one_rpow]

/-- Closed form of `calc_epi` at age 50, female, creatinine 7 mg/L: the source
multiplies the female branch by 0.9938, not 1.012. -/
lemma calc_epi_F_7 : calc_epi 50 "F" 7 = 142 * (0.9938 : ℝ) ^ (50 : ℝ) * 0.9938 := by
  have hF : ("F".data.contains 'M') = false := rfl
  simp only [calc_epi, if_neg (by norm_num : ¬ (7 : ℝ) / 10 ≤ 0), hF,
    Bool.false_eq_true, if_false]
  norm_num [Real.one_rpow]

/-- Closed form of the claim's female formula at age 50, creatinine 7 mg/L. -/
lemma claim_F_7 : egfr_claim_formula 50 true 7 = 142 * (0.9938 : ℝ) ^ (50 : ℝ) * 1.012 := by
  simp only [egfr_claim_formula, if_true]
  norm_num [Real.one_rpow]

/-- The age factor `0.9938^50` is positive. -/
lemma pow50_pos : (0 : ℝ) < (0.9938 : ℝ) ^ (50 : ℝ) :=
  Real.rpow_pos_of_pos (by norm_num) _

/-- Closed form of `calculate_egfr_2021` at age 50, male, creatinine 10 mg/L
(`scr/kappa = 10/9 > 1`). -/
lemma egfr_50_M_10_closed_form :
    calculate_egfr_2021 50 "M" 10 =
      142 * ((10 / 9 : ℝ) ^ (-1.200 : ℝ)) * (0.9938 : ℝ) ^ (50 : ℕ) := by
  have hM : (("M".data.map upperChar).contains 'F') = false := rfl
  simp only [calculate_egfr_2021, hM, Bool.false_eq_true, if_false,
    if_neg (by norm_num : ¬ (10 : ℝ) ≤ 0)]
  have h1 : (10 : ℝ) / 10 / 0.9 = 10 / 9 := by norm_num
  rw [h1]
  have hge : (1 : ℝ) ≤ 10 / 9 := by norm_num
  rw [min_eq_right hge, max_eq_left hge, Real.one_rpow]
  have h50 : (0.9938 : ℝ) ^ (50 : ℝ) = (0.9938 : ℝ) ^ (50 : ℕ) := by
    rw [← Real.rpow_natCast]
    norm_num
  rw [h50]
  ring

/-- Rational enclosure of `calculate_egfr_2021 50 "M" 10`: between 91.6 and
91.8 (the exact value is ≈ 91.691), obtained by bounding `(10/9)^(6/5)`
between 1.1347 and 1.1348 via fifth powers. -/
lemma egfr_50_M_10_bounds :
    (91.6 : ℝ) < calculate_egfr_2021 50 "M" 10 ∧
      calculate_egfr_2021 50 "M" 10 < (91.8 : ℝ) := by
  rw [egfr_50_M_10_closed_form]
  have h0 : (0 : ℝ) ≤ 10 / 9 := by norm_num
  set y : ℝ := (10 / 9 : ℝ) ^ (1.200 : ℝ) with hy
  have hyneg : ((10 / 9 : ℝ) ^ (-1.200 : ℝ)) = y⁻¹ := by
    rw [hy, ← Real.rpow_neg h0]
  have hypos : 0 < y := Real.rpow_pos_of_pos (by norm_num) _
  have hexp : ((1.200 : ℝ) * ((5 : ℕ) : ℝ)) = ((6 : ℕ) : ℝ) := by norm_num
  have hy5 : y ^ (5 : ℕ) = ((10 : ℝ) / 9) ^ (6 : ℕ) := by
    rw [hy, ← Real.rpow_natCast ((10 / 9 : ℝ) ^ (1.200 : ℝ)) 5, ← Real.rpow_mul h0,
      hexp, Real.rpow_natCast]
  have hlb : (1.1347 : ℝ) < y := by
    apply lt_of_pow_lt_pow_left₀ 5 hypos.le
    rw [hy5]; norm_num
  have hub : y < (1.1348 : ℝ) := by
    apply lt_of_pow_lt_pow_left₀ 5 (by norm_num : (0 : ℝ) ≤ 1.1348)
    rw [hy5]; norm_num
  rw [hyneg]
  have hinvlb : (1.1348 : ℝ)⁻¹ < y⁻¹ := inv_strictAnti₀ hypos hub
  have hinvub : y⁻¹ < (1.1347 : ℝ)⁻¹ := inv_strictAnti₀ (by norm_num) hlb
  constructor
  · calc (91.6 : ℝ) < 142 * (1.1348 : ℝ)⁻¹ * (0.9938 : ℝ) ^ (50 : ℕ) := by norm_num
      _ = (1.1348 : ℝ)⁻¹ * (142 * (0.9938 : ℝ) ^ (50 : ℕ)) := by ring
      _ < y⁻¹ * (142 * (0.9938 : ℝ) ^ (50 : ℕ)) :=
        mul_lt_mul_of_pos_right hinvlb (by positivity)
      _ = 142 * y⁻¹ * (0.9938 : ℝ) ^ (50 : ℕ) := by ring
  · calc 142 * y⁻¹ * (0.9938 : ℝ) ^ (50 : ℕ)
        = y⁻¹ * (142 * (0.9938 : ℝ) ^ (50 : ℕ)) := by ring
      _ < (1.1347 : ℝ)⁻¹ * (142 * (0.9938 : ℝ) ^ (50 : ℕ)) :=
        mul_lt_mul_of_pos_right hinvub (by positivity)
      _ = 142 * (1.1347 : ℝ)⁻¹ * (0.9938 : ℝ) ^ (50 : ℕ) := by ring
      _ < (91.8 : ℝ) := by norm_num

/-- Counterexample for C1: the reference value is wrong.  At age 50, male,
creatinine 10 mg/L (= 1.0 mg/dL) the source computes an eGFR strictly between
91.6 and 91.8 (≈ 91.69), hence not within 0.5 of the claimed ≈ 90.4. -/
theorem egfr_reference_value_not_90_4 :
    ¬ (|calculate_egfr_2021 50 "M" 10 - 90.4| ≤ (1 / 2 : ℝ)) ∧
    (91.6 : ℝ) < calculate_egfr_2021 50 "M" 10 ∧
    calculate_egfr_2021 50 "M" 10 < (91.8 : ℝ) := by
  obtain ⟨h1, h2⟩ := egfr_50_M_10_bounds
  refine ⟨fun hc => ?_, h1, h2⟩
  rcases abs_le.mp hc with ⟨hl, hr⟩
  linarith

/-- Claim C1 as amended: `calculate_egfr_2021` computes exactly the claimed
formula with the claimed per-sex constants, but the reference value at age 50,
creatinine 10 mg/L, male is ≈ 91.7 (between 91.6 and 91.8), not ≈ 90.4; and
the training-time variant `calc_epi` deviates from the claimed formula: it
multiplies the male branch by 1.012 and the female branch by 0.9938 instead
of 1.0 and 1.012. -/
theorem egfr_2021_formula_and_corrected_value :
    (∀ (age creat : ℝ), 0 < age → 0 < creat →
        calculate_egfr_2021 age "F" creat = egfr_claim_formula age true creat ∧
        calculate_egfr_2021 age "M" creat = egfr_claim_formula age false creat) ∧
    ((91.6 : ℝ) < calculate_egfr_2021 50 "M" 10 ∧
      calculate_egfr_2021 50 "M" 10 < (91.8 : ℝ)) ∧
    calc_epi 50 "M" 9 = 1.012 * egfr_claim_formula 50 false 9 ∧
    calc_epi 50 "M" 9 ≠ egfr_claim_formula 50 false 9 ∧
    calc_epi 50 "F" 7 * 1.012 = egfr_claim_formula 50 true 7 * 0.9938 ∧
    calc_epi 50 "F" 7 ≠ egfr_claim_formula 50 true 7 := by
  refine ⟨fun age creat _ hc => egfr_formula_match age creat hc,
    egfr_50_M_10_bounds, ?_, ?_, ?_, ?_⟩
  · rw [calc_epi_M_at 9 (Or.inr rfl), claim_M_9]; ring
  · rw [calc_epi_M_at 9 (Or.inr rfl), claim_M_9]
    have := pow50_pos
    intro h
    nlinarith
  · rw [calc_epi_F_7, claim_F_7]; ring
  · rw [calc_epi_F_7, claim_F_7]
    have := pow50_pos
    intro h
    nlinarith

/-- Witness for C1: the formula agreement applied at age 50, creatinine
10 mg/L for both sexes. -/
theorem egfr_2021_formula_witness :
    calculate_egfr_2021 50 "F" 10 = egfr_claim_formula 50 true 10 ∧
    calculate_egfr_2021 50 "M" 10 = egfr_claim_formula 50 false 10 :=
  egfr_2021_formula_and_corrected_value.1 50 10 (by norm_num) (by norm_num)

/-- Counterexample for C3: the training-time eGFR computation `calc_epi`,
cited by the claim, does not return 0.0 at creatinine 0: it substitutes the
plausible creatinine 0.9 mg/dL and returns a nonzero eGFR (≈ 92.8). -/
theorem calc_epi_zero_creatinine_counterexample : calc_epi 50 "M" 0 ≠ 0 := by
  rw [calc_epi_M_at 0 (Or.inl (by norm_num))]
  have := pow50_pos
  positivity

/-- Claim C3 as amended: for creatinine ≤ 0, `calculate_egfr_2021` returns the
missing-data sentinel 0.0, but `calc_epi` instead substitutes cr = 0.9 mg/dL
and returns the same value as for creatinine 9 mg/L. -/
theorem egfr_creatinine_sentinel_amended (age creat : ℝ) (sexe : String)
    (h : creat ≤ 0) :
    calculate_egfr_2021 age sexe creat = 0 ∧
    calc_epi age sexe creat = calc_epi age sexe 9 := by
  constructor
  · simp only [calculate_egfr_2021, if_pos h]
  · have h1 : creat / 10 ≤ 0 := by linarith
    simp only [calc_epi, if_pos h1, if_neg (by norm_num : ¬ (9 : ℝ) / 10 ≤ 0)]
    cases hM : sexe.data.contains 'M' <;>
      simp only [Bool.false_eq_true, if_false, if_true] <;> norm_num

/-- Witness for C3 at age 50, male, creatinine 0. -/
theorem egfr_creatinine_sentinel_witness :
    calculate_egfr_2021 50 "M" 0 = 0 ∧ calc_epi 50 "M" 0 = calc_epi 50 "M" 9 :=
  egfr_creatinine_sentinel_amended 50 0 "M" (by norm_num)

/-- Claim C6 (code bug): the serving featurizer emits `Gap_Formules` as an
absolute value.  At age 20, weight 120 kg, creatinine 9 mg/L, male, the
Cockcroft clearance (2000/9 ≈ 222.2) exceeds the eGFR (≈ 125.4), so the
signed difference required by the spec (and computed by the training
featurizer) is negative, while the serving feature is its negation. -/
theorem gap_formules_serving_is_absolute :
    calculate_edfg 9 20 true < cockcroft_serving 20 120 9 true ∧
    gap_formules_serving (calculate_edfg 9 20 true) (cockcroft_serving 20 120 9 true) =
      -(Gap_Formules (calculate_edfg 9 20 true) (cockcroft_serving 20 120 9 true)) ∧
    gap_formules_serving (calculate_edfg 9 20 true) (cockcroft_serving 20 120 9 true) ≠
      Gap_Formules (calculate_edfg 9 20 true) (cockcroft_serving 20 120 9 true) := by
  have hedfg : calculate_edfg 9 20 true = 142 * (0.9938 : ℝ) ^ (20 : ℕ) := by
    simp only [calculate_edfg, if_true]
    have h1 : (9 : ℝ) / 10 / 0.9 = 1 := by norm_num
    rw [h1, min_self, max_self, Real.one_rpow, Real.one_rpow]
    have h20 : (0.9938 : ℝ) ^ (20 : ℝ) = (0.9938 : ℝ) ^ (20 : ℕ) := by
      rw [← Real.rpow_natCast]
      norm_num
    rw [h20]
    ring
  have hck : cockcroft_serving 20 120 9 true = 2000 / 9 := by
    norm_num [cockcroft_serving]
  have hpow : (0.9938 : ℝ) ^ (20 : ℕ) ≤ 1 :=
    pow_le_one₀ (by norm_num) (by norm_num)
  have hlt : calculate_edfg 9 20 true < cockcroft_serving 20 120 9 true := by
    rw [hedfg, hck]
    nlinarith
  have hneg : Gap_Formules (calculate_edfg 9 20 true) (cockcroft_serving 20 120 9 true) < 0 := by
    simp only [Gap_Formules]
    linarith
  have habs : gap_formules_serving (calculate_edfg 9 20 true) (cockcroft_serving 20 120 9 true) =
      -(Gap_Formules (calculate_edfg 9 20 true) (cockcroft_serving 20 120 9 true)) := by
    simp only [gap_formules_serving, Gap_Formules]
    exact abs_of_neg (by linarith)
  refine ⟨hlt, habs, ?_⟩
  rw [habs]
  intro hcon
  linarith
